import Mathlib

/-
  Verification development for the configuration front-end of rnn-learn
  (src/src/rnn-learn/main.c): parameter initialization, command-line and
  config-file option setters, parameter validation (check_parameters) and
  the sequencing of main before training_main is entered.

  Modelling conventions:
  * C `double` fields are modelled as ℚ; the comparisons against 0 performed
    by check_parameters agree with the rational order on all non-NaN values.
  * C `int`/`long` fields are modelled as Int (no arithmetic in the modelled
    code can overflow them apart from the documented seed computation, which
    is modelled with an explicit mod 2^64 for the cast to unsigned long).
  * `unsigned long seed` is modelled as Nat; the C comparison seed <= 0 on an
    unsigned integer holds exactly for seed = 0, which the Nat order mirrors.
  * C int flags that are only ever assigned 0 or 1 are modelled as Bool.
  * char* option arguments (possibly NULL) are modelled as Option String.
  * File-system access (fopen of target/config files) is external: config
    files enter the model as their list of lines, target data as a
    target_reader record, and the expansion of getopt/config processing into
    a sequence of setter invocations is taken as given (it is deterministic
    in the argv array and the config-file contents).
-/

namespace SCTRNN

/-- Modelled from the spec: parameter.h is not under src/; EPOCH_SIZE is the
default number of training iterations (help text: option -e). -/
def EPOCH_SIZE : Int := 10000

/-- Modelled from the spec: parameter.h is not under src/; RHO is the default
learning rate for the gradient-descent method (help text: option -x). -/
def RHO : ℚ := mkRat 1 1000

/-- Modelled from the spec: parameter.h is not under src/; MOMENTUM is the
default learning momentum (help text: option -m). -/
def MOMENTUM : ℚ := mkRat 9 10

/-- Modelled from the spec: parameter.h is not under src/; C_STATE_SIZE is the
default number of context neurons (help text: option -n). -/
def C_STATE_SIZE : Int := 10

/-- Modelled from the spec: parameter.h is not under src/; REP_INIT_SIZE is
the default number of representative points of initial state. -/
def REP_INIT_SIZE : Int := 1

/-- Modelled from the spec: parameter.h is not under src/; DELAY_LENGTH is the
default time delay in the self-feedback (help text: option -d). -/
def DELAY_LENGTH : Int := 1

/-- Modelled from the spec: parameter.h is not under src/; OUTPUT_TYPE is the
default type of output function (0 means tanh per the help text). -/
def OUTPUT_TYPE : Int := 0

/-- Modelled from the spec: parameter.h is not under src/; INIT_TAU is the
default time constant, stringified by TO_STRING in init_parameters. -/
def INIT_TAU : String := "2"

/-- Modelled from the spec: parameter.h is not under src/; PRIOR_STRENGTH is
the default effect of the normal prior distribution. -/
def PRIOR_STRENGTH : ℚ := 0

/-- Modelled from the spec: parameter.h is not under src/; REP_INIT_VARIANCE
is the default variance for representative points of initial state. -/
def REP_INIT_VARIANCE : ℚ := 1

/-- Modelled from the spec: parameter.h is not under src/; LAMBDA is the
default value of the secondary regularization coefficient lambda. -/
def LAMBDA : ℚ := 0

/-- Modelled from the spec: parameter.h is not under src/; ALPHA is the
default value of the secondary regularization coefficient alpha. -/
def ALPHA : ℚ := 0

/-- Modelled from the spec: parameter.h is not under src/; TRUNCATE_LENGTH is
the default backward-pass truncation horizon. -/
def TRUNCATE_LENGTH : Int := 0

/-- Modelled from the spec: parameter.h is not under src/; BLOCK_LENGTH is the
default forward-pass block segmentation length. -/
def BLOCK_LENGTH : Int := 0

/-- Modelled from the spec: parameter.h is not under src/; DIVIDE_NUM is the
default number of segments of the Lyapunov analysis. -/
def DIVIDE_NUM : Int := 2

/-- Modelled from the spec: parameter.h is not under src/;
LYAPUNOV_SPECTRUM_SIZE is the default spectrum size. -/
def LYAPUNOV_SPECTRUM_SIZE : Int := 1

/-- Modelled from the spec: parameter.h is not under src/; THRESHOLD_PERIOD is
the default period-detection threshold. -/
def THRESHOLD_PERIOD : ℚ := 1000

/-- Modelled from the spec: parameter.h is not under src/; PRINT_INTERVAL is
the default learning step between data samples being logged. -/
def PRINT_INTERVAL : Int := 100

/-- Modelled from the spec: parameter.h is not under src/; default output file
names for the fourteen output streams and the load file. LOAD_FILENAME is
empty: with no -i option no previous state is loaded. -/
def STATE_FILENAME : String := "state.log"

/-- Modelled from the spec: default closed-loop state file name. -/
def CLOSED_STATE_FILENAME : String := "closed-state.log"

/-- Modelled from the spec: default weight file name. -/
def WEIGHT_FILENAME : String := "weight.log"

/-- Modelled from the spec: default threshold file name. -/
def THRESHOLD_FILENAME : String := "threshold.log"

/-- Modelled from the spec: default tau file name. -/
def TAU_FILENAME : String := "tau.log"

/-- Modelled from the spec: default initial-state file name. -/
def INIT_FILENAME : String := "init.log"

/-- Modelled from the spec: default representative-point file name. -/
def REP_INIT_FILENAME : String := "rep-init.log"

/-- Modelled from the spec: default adaptive-learning-rate trace file name. -/
def ADAPT_LR_FILENAME : String := "adapt-lr.log"

/-- Modelled from the spec: default error file name. -/
def ERROR_FILENAME : String := "error.log"

/-- Modelled from the spec: default closed-loop error file name. -/
def CLOSED_ERROR_FILENAME : String := "closed-error.log"

/-- Modelled from the spec: default Lyapunov spectrum file name. -/
def LYAPUNOV_FILENAME : String := "lyapunov.log"

/-- Modelled from the spec: default entropy file name. -/
def ENTROPY_FILENAME : String := "entropy.log"

/-- Modelled from the spec: default period file name. -/
def PERIOD_FILENAME : String := "period.log"

/-- Modelled from the spec: default save file name (option -o). -/
def SAVE_FILENAME : String := "rnn.dat"

/-- Modelled from the spec: default load file name; empty means no load. -/
def LOAD_FILENAME : String := ""

/-- LONG_MAX from limits.h on an LP64 platform, used by init_parameters for
the default end bound of a print interval. -/
def LONG_MAX : Int := 9223372036854775807

/-- The default seed computed by init_parameters from the ambient system time
and process id: `(((unsigned long)(time(NULL) * getpid())) % 4294967295) + 1`.
The argument is the (signed, then cast to unsigned long, hence mod 2^64)
product time(NULL) * getpid(). -/
def default_seed (time_pid : Int) : Nat :=
  ((time_pid % (2 ^ 64 : Int)).toNat % 4294967295) + 1

/-- Interval policy of one output stream (struct print_interval): linear
interval, init/end bounds, a logscale flag, and one explicitly-set marker per
option (the C fields _set_interval_flag and friends; int 0/1 modelled as
Bool). -/
structure print_interval where
  interval : Int
  init : Int
  end_ : Int
  use_logscale_interval : Bool
  _set_interval_flag : Bool
  _set_init_flag : Bool
  _set_end_flag : Bool
  _set_use_logscale_interval_flag : Bool
deriving DecidableEq

/-- The thirteen output streams that own a per-stream print_interval record
(the fields interval_for_state_file .. interval_for_period_file of the io
parameters; the fourteenth stream of the spec, the final save, has no
interval policy in the code). -/
inductive stream_file where
  | state_file
  | closed_state_file
  | weight_file
  | threshold_file
  | tau_file
  | init_file
  | rep_init_file
  | adapt_lr_file
  | error_file
  | closed_error_file
  | lyapunov_file
  | entropy_file
  | period_file
deriving DecidableEq

/-- Model parameters sub-record (gp->mp) exactly as filled by
init_parameters. -/
structure model_parameters where
  seed : Nat
  epoch_size : Int
  use_adaptive_lr : Bool
  rho : ℚ
  momentum : ℚ
  c_state_size : Int
  rep_init_size : Int
  delay_length : Int
  output_type : Int
  fixed_weight : Bool
  fixed_threshold : Bool
  fixed_tau : Bool
  fixed_init_c_state : Bool
  connection_i2c : String
  connection_c2c : String
  connection_c2o : String
  connection_c2v : String
  const_init_c : String
  softmax_group : String
  init_tau : String
  prior_strength : ℚ
  rep_init_variance : ℚ
  lambda : ℚ
  alpha : ℚ

/-- Analysis parameters sub-record (gp->ap). -/
structure analysis_parameters where
  truncate_length : Int
  block_length : Int
  divide_num : Int
  lyapunov_spectrum_size : Int
  threshold_period : ℚ

/-- Input/output parameters sub-record (gp->iop). The thirteen named
interval_for_* fields of the C struct are modelled as one function out of
stream_file; the C code generated by GEN_PRINT_INTERVAL_SETTER and
SET_DEFAULT_VALUE_OF_PRINT_INTERVAL is uniform in the stream name. -/
structure io_parameters where
  state_filename : String
  closed_state_filename : String
  weight_filename : String
  threshold_filename : String
  tau_filename : String
  init_filename : String
  rep_init_filename : String
  adapt_lr_filename : String
  error_filename : String
  closed_error_filename : String
  lyapunov_filename : String
  entropy_filename : String
  period_filename : String
  save_filename : String
  load_filename : String
  default_interval : print_interval
  interval_for : stream_file → print_interval
  verbose : Bool

/-- The general_parameters record handed to training_main (the inp sub-record
filled by setup_parameters holds only derived allocations parsed from the
connection strings by external parse.h code and is not needed by the claims
settled here). -/
structure general_parameters where
  mp : model_parameters
  ap : analysis_parameters
  iop : io_parameters

/-- Result of the external target reader (struct target_reader): number of
parsed sequences and the shared feature dimension. -/
structure target_reader where
  num : Nat
  dimension : Nat
deriving DecidableEq

/-- The default interval policy built inside init_parameters: interval
PRINT_INTERVAL, init 0, end LONG_MAX, linear spacing; the designated
initializer zero-fills the _set flags. -/
def default_interval_record : print_interval :=
  { interval := PRINT_INTERVAL
    init := 0
    end_ := LONG_MAX
    use_logscale_interval := false
    _set_interval_flag := false
    _set_init_flag := false
    _set_end_flag := false
    _set_use_logscale_interval_flag := false }

/-- init_parameters: fills every field of the configuration with its default.
The only ambient-state dependence is the default seed computed from
time(NULL) * getpid(), passed here as the argument. -/
def init_parameters (time_pid : Int) : general_parameters :=
  { mp :=
    { seed := default_seed time_pid
      epoch_size := EPOCH_SIZE
      use_adaptive_lr := false
      rho := RHO
      momentum := MOMENTUM
      c_state_size := C_STATE_SIZE
      rep_init_size := REP_INIT_SIZE
      delay_length := DELAY_LENGTH
      output_type := OUTPUT_TYPE
      fixed_weight := false
      fixed_threshold := false
      fixed_tau := false
      fixed_init_c_state := false
      connection_i2c := "-t-"
      connection_c2c := "-t-"
      connection_c2o := "-t-"
      connection_c2v := "-t-"
      const_init_c := ""
      softmax_group := ""
      init_tau := INIT_TAU
      prior_strength := PRIOR_STRENGTH
      rep_init_variance := REP_INIT_VARIANCE
      lambda := LAMBDA
      alpha := ALPHA }
    ap :=
    { truncate_length := TRUNCATE_LENGTH
      block_length := BLOCK_LENGTH
      divide_num := DIVIDE_NUM
      lyapunov_spectrum_size := LYAPUNOV_SPECTRUM_SIZE
      threshold_period := THRESHOLD_PERIOD }
    iop :=
    { state_filename := STATE_FILENAME
      closed_state_filename := CLOSED_STATE_FILENAME
      weight_filename := WEIGHT_FILENAME
      threshold_filename := THRESHOLD_FILENAME
      tau_filename := TAU_FILENAME
      init_filename := INIT_FILENAME
      rep_init_filename := REP_INIT_FILENAME
      adapt_lr_filename := ADAPT_LR_FILENAME
      error_filename := ERROR_FILENAME
      closed_error_filename := CLOSED_ERROR_FILENAME
      lyapunov_filename := LYAPUNOV_FILENAME
      entropy_filename := ENTROPY_FILENAME
      period_filename := PERIOD_FILENAME
      save_filename := SAVE_FILENAME
      load_filename := LOAD_FILENAME
      default_interval := default_interval_record
      interval_for := fun _ => default_interval_record
      verbose := false } }

/-- Value of a run of decimal digits (the digit prefix already isolated by
takeWhile Char.isDigit). -/
def digits_to_nat (cs : List Char) : Nat :=
  cs.foldl (fun a c => a * 10 + (c.toNat - 48)) 0

/-- Model of C atoi/atol restricted to the decimal grammar: optional leading
spaces/tabs, optional sign, then a digit prefix. Every argument actually
parsed in this development is a plain decimal literal. -/
def atoi (s : String) : Int :=
  let cs := s.toList.dropWhile (fun c => c == ' ' || c == '\t')
  match cs with
  | '-' :: rest => -(digits_to_nat (rest.takeWhile Char.isDigit) : Int)
  | '+' :: rest => (digits_to_nat (rest.takeWhile Char.isDigit) : Int)
  | _ => (digits_to_nat (cs.takeWhile Char.isDigit) : Int)

/-- atol has the same decimal behaviour as atoi in this model. -/
def atol (s : String) : Int := atoi s

/-- Model of C atof restricted to plain decimals: optional sign, integer
digits, optional fraction after a dot (exponent notation is not used by any
input of this development). -/
def atof (s : String) : ℚ :=
  let cs := s.toList.dropWhile (fun c => c == ' ' || c == '\t')
  let sgn : Int := match cs with
    | '-' :: _ => -1
    | _ => 1
  let cs2 := match cs with
    | '-' :: r => r
    | '+' :: r => r
    | _ => cs
  let ip := cs2.takeWhile Char.isDigit
  let rest := cs2.dropWhile Char.isDigit
  let fp := match rest with
    | '.' :: r => r.takeWhile Char.isDigit
    | _ => []
  mkRat (sgn * ((digits_to_nat ip : Int) * 10 ^ fp.length + (digits_to_nat fp : Int)))
    (10 ^ fp.length)

/-- Model of strtoul(opt, NULL, 0) on decimal input: the signed decimal value
reduced mod 2^64 into an unsigned long (hex/octal prefixes are not used by
any input of this development). -/
def strtoul (s : String) : Nat :=
  ((atoi s) % (2 ^ 64 : Int)).toNat

/-- set_seed. The opt argument of every setter is Option String (a possibly
NULL char*); setters that read it are only ever invoked with a present
argument (getopt optarg, or a config line guarded by has_arg). -/
def set_seed (opt : Option String) (gp : general_parameters) : general_parameters :=
  { gp with mp := { gp.mp with seed := strtoul (opt.getD "") } }

/-- set_epoch_size. -/
def set_epoch_size (opt : Option String) (gp : general_parameters) : general_parameters :=
  { gp with mp := { gp.mp with epoch_size := atol (opt.getD "") } }

/-- set_use_adaptive_lr (ignores its argument). -/
def set_use_adaptive_lr (opt : Option String) (gp : general_parameters) : general_parameters :=
  { gp with mp := { gp.mp with use_adaptive_lr := true } }

/-- set_rho. -/
def set_rho (opt : Option String) (gp : general_parameters) : general_parameters :=
  { gp with mp := { gp.mp with rho := atof (opt.getD "") } }

/-- set_momentum. -/
def set_momentum (opt : Option String) (gp : general_parameters) : general_parameters :=
  { gp with mp := { gp.mp with momentum := atof (opt.getD "") } }

/-- set_c_state_size. -/
def set_c_state_size (opt : Option String) (gp : general_parameters) : general_parameters :=
  { gp with mp := { gp.mp with c_state_size := atoi (opt.getD "") } }

/-- set_rep_init_size. -/
def set_rep_init_size (opt : Option String) (gp : general_parameters) : general_parameters :=
  { gp with mp := { gp.mp with rep_init_size := atoi (opt.getD "") } }

/-- set_delay_length. -/
def set_delay_length (opt : Option String) (gp : general_parameters) : general_parameters :=
  { gp with mp := { gp.mp with delay_length := atoi (opt.getD "") } }

/-- set_output_type. -/
def set_output_type (opt : Option String) (gp : general_parameters) : general_parameters :=
  { gp with mp := { gp.mp with output_type := atoi (opt.getD "") } }

/-- set_fixed_weight (ignores its argument). -/
def set_fixed_weight (opt : Option String) (gp : general_parameters) : general_parameters :=
  { gp with mp := { gp.mp with fixed_weight := true } }

/-- set_fixed_threshold (ignores its argument). -/
def set_fixed_threshold (opt : Option String) (gp : general_parameters) : general_parameters :=
  { gp with mp := { gp.mp with fixed_threshold := true } }

/-- set_fixed_tau (ignores its argument). -/
def set_fixed_tau (opt : Option String) (gp : general_parameters) : general_parameters :=
  { gp with mp := { gp.mp with fixed_tau := true } }

/-- set_fixed_init_c_state (ignores its argument). -/
def set_fixed_init_c_state (opt : Option String) (gp : general_parameters) : general_parameters :=
  { gp with mp := { gp.mp with fixed_init_c_state := true } }

/-- set_connection_i2c (salloc copies the string). -/
def set_connection_i2c (opt : Option String) (gp : general_parameters) : general_parameters :=
  { gp with mp := { gp.mp with connection_i2c := opt.getD "" } }

/-- set_connection_c2c. -/
def set_connection_c2c (opt : Option String) (gp : general_parameters) : general_parameters :=
  { gp with mp := { gp.mp with connection_c2c := opt.getD "" } }

/-- set_connection_c2o. -/
def set_connection_c2o (opt : Option String) (gp : general_parameters) : general_parameters :=
  { gp with mp := { gp.mp with connection_c2o := opt.getD "" } }

/-- set_connection_c2v. -/
def set_connection_c2v (opt : Option String) (gp : general_parameters) : general_parameters :=
  { gp with mp := { gp.mp with connection_c2v := opt.getD "" } }

/-- set_const_init_c. -/
def set_const_init_c (opt : Option String) (gp : general_parameters) : general_parameters :=
  { gp with mp := { gp.mp with const_init_c := opt.getD "" } }

/-- set_softmax_group. -/
def set_softmax_group (opt : Option String) (gp : general_parameters) : general_parameters :=
  { gp with mp := { gp.mp with softmax_group := opt.getD "" } }

/-- set_init_tau. -/
def set_init_tau (opt : Option String) (gp : general_parameters) : general_parameters :=
  { gp with mp := { gp.mp with init_tau := opt.getD "" } }

/-- set_prior_strength. -/
def set_prior_strength (opt : Option String) (gp : general_parameters) : general_parameters :=
  { gp with mp := { gp.mp with prior_strength := atof (opt.getD "") } }

/-- set_rep_init_variance. -/
def set_rep_init_variance (opt : Option String) (gp : general_parameters) : general_parameters :=
  { gp with mp := { gp.mp with rep_init_variance := atof (opt.getD "") } }

/-- set_lambda. -/
def set_lambda (opt : Option String) (gp : general_parameters) : general_parameters :=
  { gp with mp := { gp.mp with lambda := atof (opt.getD "") } }

/-- set_alpha. -/
def set_alpha (opt : Option String) (gp : general_parameters) : general_parameters :=
  { gp with mp := { gp.mp with alpha := atof (opt.getD "") } }

/-- set_truncate_length. -/
def set_truncate_length (opt : Option String) (gp : general_parameters) : general_parameters :=
  { gp with ap := { gp.ap with truncate_length := atoi (opt.getD "") } }

/-- set_block_length. -/
def set_block_length (opt : Option String) (gp : general_parameters) : general_parameters :=
  { gp with ap := { gp.ap with block_length := atoi (opt.getD "") } }

/-- set_divide_num. -/
def set_divide_num (opt : Option String) (gp : general_parameters) : general_parameters :=
  { gp with ap := { gp.ap with divide_num := atoi (opt.getD "") } }

/-- set_lyapunov_spectrum_size. -/
def set_lyapunov_spectrum_size (opt : Option String) (gp : general_parameters) : general_parameters :=
  { gp with ap := { gp.ap with lyapunov_spectrum_size := atoi (opt.getD "") } }

/-- set_threshold_period. -/
def set_threshold_period (opt : Option String) (gp : general_parameters) : general_parameters :=
  { gp with ap := { gp.ap with threshold_period := atof (opt.getD "") } }

/-- set_state_file. -/
def set_state_file (opt : Option String) (gp : general_parameters) : general_parameters :=
  { gp with iop := { gp.iop with state_filename := opt.getD "" } }

/-- set_closed_state_file. -/
def set_closed_state_file (opt : Option String) (gp : general_parameters) : general_parameters :=
  { gp with iop := { gp.iop with closed_state_filename := opt.getD "" } }

/-- set_weight_file. -/
def set_weight_file (opt : Option String) (gp : general_parameters) : general_parameters :=
  { gp with iop := { gp.iop with weight_filename := opt.getD "" } }

/-- set_threshold_file. -/
def set_threshold_file (opt : Option String) (gp : general_parameters) : general_parameters :=
  { gp with iop := { gp.iop with threshold_filename := opt.getD "" } }

/-- set_tau_file. -/
def set_tau_file (opt : Option String) (gp : general_parameters) : general_parameters :=
  { gp with iop := { gp.iop with tau_filename := opt.getD "" } }

/-- set_init_file. -/
def set_init_file (opt : Option String) (gp : general_parameters) : general_parameters :=
  { gp with iop := { gp.iop with init_filename := opt.getD "" } }

/-- set_rep_init_file. -/
def set_rep_init_file (opt : Option String) (gp : general_parameters) : general_parameters :=
  { gp with iop := { gp.iop with rep_init_filename := opt.getD "" } }

/-- set_adapt_lr_file. -/
def set_adapt_lr_file (opt : Option String) (gp : general_parameters) : general_parameters :=
  { gp with iop := { gp.iop with adapt_lr_filename := opt.getD "" } }

/-- set_error_file. -/
def set_error_file (opt : Option String) (gp : general_parameters) : general_parameters :=
  { gp with iop := { gp.iop with error_filename := opt.getD "" } }

/-- set_closed_error_file. -/
def set_closed_error_file (opt : Option String) (gp : general_parameters) : general_parameters :=
  { gp with iop := { gp.iop with closed_error_filename := opt.getD "" } }

/-- set_lyapunov_file. -/
def set_lyapunov_file (opt : Option String) (gp : general_parameters) : general_parameters :=
  { gp with iop := { gp.iop with lyapunov_filename := opt.getD "" } }

/-- set_entropy_file. -/
def set_entropy_file (opt : Option String) (gp : general_parameters) : general_parameters :=
  { gp with iop := { gp.iop with entropy_filename := opt.getD "" } }

/-- set_period_file. -/
def set_period_file (opt : Option String) (gp : general_parameters) : general_parameters :=
  { gp with iop := { gp.iop with period_filename := opt.getD "" } }

/-- set_save_file. -/
def set_save_file (opt : Option String) (gp : general_parameters) : general_parameters :=
  { gp with iop := { gp.iop with save_filename := opt.getD "" } }

/-- set_load_file. -/
def set_load_file (opt : Option String) (gp : general_parameters) : general_parameters :=
  { gp with iop := { gp.iop with load_filename := opt.getD "" } }

/-- set_print_interval: assigns the default interval and then, for every
stream whose _set_interval_flag is unset, copies the (new) default interval
value into that stream (macro SET_DEFAULT_VALUE_OF_PRINT_INTERVAL). -/
def set_print_interval (opt : Option String) (gp : general_parameters) : general_parameters :=
  { gp with iop := { gp.iop with
      default_interval :=
        { gp.iop.default_interval with interval := atol (opt.getD "") }
      interval_for := fun g =>
        if (gp.iop.interval_for g)._set_interval_flag then gp.iop.interval_for g
        else { gp.iop.interval_for g with interval := atol (opt.getD "") } } }

/-- set_print_init: default init bound, copied to streams without an explicit
init. -/
def set_print_init (opt : Option String) (gp : general_parameters) : general_parameters :=
  { gp with iop := { gp.iop with
      default_interval :=
        { gp.iop.default_interval with init := atol (opt.getD "") }
      interval_for := fun g =>
        if (gp.iop.interval_for g)._set_init_flag then gp.iop.interval_for g
        else { gp.iop.interval_for g with init := atol (opt.getD "") } } }

/-- set_print_end: default end bound, copied to streams without an explicit
end. -/
def set_print_end (opt : Option String) (gp : general_parameters) : general_parameters :=
  { gp with iop := { gp.iop with
      default_interval :=
        { gp.iop.default_interval with end_ := atol (opt.getD "") }
      interval_for := fun g =>
        if (gp.iop.interval_for g)._set_end_flag then gp.iop.interval_for g
        else { gp.iop.interval_for g with end_ := atol (opt.getD "") } } }

/-- set_use_logscale_interval: turns on logscale spacing by default, copied to
streams without an explicit logscale setting (ignores its argument). -/
def set_use_logscale_interval (opt : Option String) (gp : general_parameters) : general_parameters :=
  { gp with iop := { gp.iop with
      default_interval :=
        { gp.iop.default_interval with use_logscale_interval := true }
      interval_for := fun g =>
        if (gp.iop.interval_for g)._set_use_logscale_interval_flag then
          gp.iop.interval_for g
        else { gp.iop.interval_for g with use_logscale_interval := true } } }

/-- set_print_interval_for_FILENAME (macro GEN_PRINT_INTERVAL_SETTER_I,
uniform in the stream): sets the stream's interval and marks it explicitly
set. -/
def set_print_interval_for (fn : stream_file) (opt : Option String) (gp : general_parameters) : general_parameters :=
  { gp with iop := { gp.iop with
      interval_for := fun g =>
        if g = fn then
          { gp.iop.interval_for fn with
              interval := atol (opt.getD ""),
              _set_interval_flag := true }
        else gp.iop.interval_for g } }

/-- set_print_init_for_FILENAME. -/
def set_print_init_for (fn : stream_file) (opt : Option String) (gp : general_parameters) : general_parameters :=
  { gp with iop := { gp.iop with
      interval_for := fun g =>
        if g = fn then
          { gp.iop.interval_for fn with
              init := atol (opt.getD ""),
              _set_init_flag := true }
        else gp.iop.interval_for g } }

/-- set_print_end_for_FILENAME. -/
def set_print_end_for (fn : stream_file) (opt : Option String) (gp : general_parameters) : general_parameters :=
  { gp with iop := { gp.iop with
      interval_for := fun g =>
        if g = fn then
          { gp.iop.interval_for fn with
              end_ := atol (opt.getD ""),
              _set_end_flag := true }
        else gp.iop.interval_for g } }

/-- set_use_logscale_interval_for_FILENAME (the generated IN expression is the
constant 1). -/
def set_use_logscale_interval_for (fn : stream_file) (opt : Option String) (gp : general_parameters) : general_parameters :=
  { gp with iop := { gp.iop with
      interval_for := fun g =>
        if g = fn then
          { gp.iop.interval_for fn with
              use_logscale_interval := true,
              _set_use_logscale_interval_flag := true }
        else gp.iop.interval_for g } }

/-- set_verbose (ignores its argument). -/
def set_verbose (opt : Option String) (gp : general_parameters) : general_parameters :=
  { gp with iop := { gp.iop with verbose := true } }

/-- set_config_file opens and reads another configuration file through the
file system, which is external to this embedding; the inclusion is modelled
as the identity here and config-file contents enter the model directly as
line lists (see read_config_file / main_run_config). None of the claims
settled in this file depends on nested config inclusion. -/
def set_config_file (opt : Option String) (gp : general_parameters) : general_parameters :=
  gp

/-- Printable name of a stream, as used in the generated option-table entry
names print_interval_for_state_file etc. -/
def stream_file_name : stream_file → String
  | .state_file => "state_file"
  | .closed_state_file => "closed_state_file"
  | .weight_file => "weight_file"
  | .threshold_file => "threshold_file"
  | .tau_file => "tau_file"
  | .init_file => "init_file"
  | .rep_init_file => "rep_init_file"
  | .adapt_lr_file => "adapt_lr_file"
  | .error_file => "error_file"
  | .closed_error_file => "closed_error_file"
  | .lyapunov_file => "lyapunov_file"
  | .entropy_file => "entropy_file"
  | .period_file => "period_file"

/-- One option-table entry of opt_info: option name, has_arg, setter. -/
abbrev OptInfoEntry : Type :=
  String × Bool × (Option String → general_parameters → general_parameters)

/-- The four generated table entries of one stream (macro
ENTRY_PRINT_INTERVAL_SETTER). -/
def entry_print_interval_setter (fn : stream_file) : List OptInfoEntry :=
  [("print_interval_for_" ++ stream_file_name fn, true, set_print_interval_for fn),
   ("print_init_for_" ++ stream_file_name fn, true, set_print_init_for fn),
   ("print_end_for_" ++ stream_file_name fn, true, set_print_end_for fn),
   ("use_logscale_interval_for_" ++ stream_file_name fn, false, set_use_logscale_interval_for fn)]

/-- All thirteen streams in the order of their table blocks. -/
def stream_files : List stream_file :=
  [.state_file, .closed_state_file, .weight_file, .threshold_file, .tau_file,
   .init_file, .rep_init_file, .adapt_lr_file, .error_file, .closed_error_file,
   .lyapunov_file, .entropy_file, .period_file]

/-- The option table opt_info of main.c, in source order. -/
def opt_info : List OptInfoEntry :=
  [("seed", true, set_seed),
   ("epoch_size", true, set_epoch_size),
   ("use_adaptive_lr", false, set_use_adaptive_lr),
   ("rho", true, set_rho),
   ("momentum", true, set_momentum),
   ("c_state_size", true, set_c_state_size),
   ("rep_init_size", true, set_rep_init_size),
   ("delay_length", true, set_delay_length),
   ("output_type", true, set_output_type),
   ("fixed_weight", false, set_fixed_weight),
   ("fixed_threshold", false, set_fixed_threshold),
   ("fixed_tau", false, set_fixed_tau),
   ("fixed_init_c_state", false, set_fixed_init_c_state),
   ("connection_i2c", true, set_connection_i2c),
   ("connection_c2c", true, set_connection_c2c),
   ("connection_c2o", true, set_connection_c2o),
   ("connection_c2v", true, set_connection_c2v),
   ("const_init_c", true, set_const_init_c),
   ("softmax_group", true, set_softmax_group),
   ("init_tau", true, set_init_tau),
   ("prior_strength", true, set_prior_strength),
   ("rep_init_variance", true, set_rep_init_variance),
   ("lambda", true, set_lambda),
   ("alpha", true, set_alpha),
   ("truncate_length", true, set_truncate_length),
   ("block_length", true, set_block_length),
   ("divide_num", true, set_divide_num),
   ("lyapunov_spectrum_size", true, set_lyapunov_spectrum_size),
   ("threshold_period", true, set_threshold_period),
   ("state_file", true, set_state_file),
   ("closed_state_file", true, set_closed_state_file),
   ("weight_file", true, set_weight_file),
   ("threshold_file", true, set_threshold_file),
   ("tau_file", true, set_tau_file),
   ("init_file", true, set_init_file),
   ("rep_init_file", true, set_rep_init_file),
   ("adapt_lr_file", true, set_adapt_lr_file),
   ("error_file", true, set_error_file),
   ("closed_error_file", true, set_closed_error_file),
   ("lyapunov_file", true, set_lyapunov_file),
   ("entropy_file", true, set_entropy_file),
   ("period_file", true, set_period_file),
   ("save_file", true, set_save_file),
   ("load_file", true, set_load_file),
   ("print_interval", true, set_print_interval),
   ("print_init", true, set_print_init),
   ("print_end", true, set_print_end),
   ("use_logscale_interval", false, set_use_logscale_interval)]
  ++ (stream_files.map entry_print_interval_setter).flatten
  ++ [("verbose", false, set_verbose),
      ("config_file", true, set_config_file)]

/-- strip: removes every leading and trailing occurrence of the character c
(main.c strip, which tolerates NULL; the NULL case is handled at the caller
through Option.map). -/
def strip (s : String) (c : Char) : String :=
  String.mk (((s.toList.dropWhile (· == c)).reverse.dropWhile (· == c)).reverse)

/-- parse_option_and_arg: truncates the line at the first hash sign or
newline; if the remainder is nonempty, splits at the first equals sign into
option and argument (argument absent when there is no equals sign) and strips
spaces from both; otherwise yields no option. -/
def parse_option_and_arg (str : String) : Option String × Option String :=
  let cs := str.toList.takeWhile (fun c => !(c == '#' || c == '\n'))
  if 0 < cs.length then
    let before := cs.takeWhile (fun c => !(c == '='))
    let rest := cs.dropWhile (fun c => !(c == '='))
    match rest with
    | [] => (some (strip (String.mk before) ' '), none)
    | _ :: after => (some (strip (String.mk before) ' '), some (strip (String.mk after) ' '))
  else (none, none)

/-- One line of read_config_file: parse the line, look the option up in
opt_info; a known option missing a required argument or an unknown option
yields a warning message (print_error_msg) and leaves the parameters
unchanged; otherwise the setter is applied. The line number is used in the
warning text. -/
def read_config_line (gp : general_parameters) (line : Nat) (str : String) :
    general_parameters × Option String :=
  match parse_option_and_arg str with
  | (some opt, arg) =>
    if 0 < opt.length then
      match opt_info.find? (fun e => e.1 == opt) with
      | some e =>
        if e.2.1 && arg.isNone then
          (gp, some ("warning: option \x60" ++ opt ++ "\x27 requires an argument at line " ++ toString line))
        else (e.2.2 arg gp, none)
      | none =>
        (gp, some ("warning: unknown option \x60" ++ opt ++ "\x27 at line " ++ toString line))
    else (gp, none)
  | (none, _) => (gp, none)

/-- read_config_file over the list of lines of the file: threads the
parameters through read_config_line, collecting the warning messages; it
never exits, every line is processed. -/
def read_config_file (lines : List String) (gp : general_parameters) :
    general_parameters × List String :=
  let res := lines.foldl
    (fun (acc : general_parameters × List String × Nat) (str : String) =>
      let r := read_config_line acc.1 acc.2.2 str
      (r.1, acc.2.1 ++ (match r.2 with | some w => [w] | none => []), acc.2.2 + 1))
    (gp, [], 1)
  (res.1, res.2.1)

/-- Identifier of one setter function, used to model the sequence of setter
invocations that read_options (getopt dispatch) and config-file processing
perform on the parameter record. -/
inductive SetterId where
  | seed
  | epoch_size
  | use_adaptive_lr
  | rho
  | momentum
  | c_state_size
  | rep_init_size
  | delay_length
  | output_type
  | fixed_weight
  | fixed_threshold
  | fixed_tau
  | fixed_init_c_state
  | connection_i2c
  | connection_c2c
  | connection_c2o
  | connection_c2v
  | const_init_c
  | softmax_group
  | init_tau
  | prior_strength
  | rep_init_variance
  | lambda
  | alpha
  | truncate_length
  | block_length
  | divide_num
  | lyapunov_spectrum_size
  | threshold_period
  | state_file
  | closed_state_file
  | weight_file
  | threshold_file
  | tau_file
  | init_file
  | rep_init_file
  | adapt_lr_file
  | error_file
  | closed_error_file
  | lyapunov_file
  | entropy_file
  | period_file
  | save_file
  | load_file
  | print_interval
  | print_init
  | print_end
  | use_logscale_interval
  | print_interval_for (fn : stream_file)
  | print_init_for (fn : stream_file)
  | print_end_for (fn : stream_file)
  | use_logscale_interval_for (fn : stream_file)
  | verbose
  | config_file

/-- Dispatch of a setter identifier to the setter it names. -/
def apply_setter : SetterId → Option String → general_parameters → general_parameters
  | .seed, a, gp => set_seed a gp
  | .epoch_size, a, gp => set_epoch_size a gp
  | .use_adaptive_lr, a, gp => set_use_adaptive_lr a gp
  | .rho, a, gp => set_rho a gp
  | .momentum, a, gp => set_momentum a gp
  | .c_state_size, a, gp => set_c_state_size a gp
  | .rep_init_size, a, gp => set_rep_init_size a gp
  | .delay_length, a, gp => set_delay_length a gp
  | .output_type, a, gp => set_output_type a gp
  | .fixed_weight, a, gp => set_fixed_weight a gp
  | .fixed_threshold, a, gp => set_fixed_threshold a gp
  | .fixed_tau, a, gp => set_fixed_tau a gp
  | .fixed_init_c_state, a, gp => set_fixed_init_c_state a gp
  | .connection_i2c, a, gp => set_connection_i2c a gp
  | .connection_c2c, a, gp => set_connection_c2c a gp
  | .connection_c2o, a, gp => set_connection_c2o a gp
  | .connection_c2v, a, gp => set_connection_c2v a gp
  | .const_init_c, a, gp => set_const_init_c a gp
  | .softmax_group, a, gp => set_softmax_group a gp
  | .init_tau, a, gp => set_init_tau a gp
  | .prior_strength, a, gp => set_prior_strength a gp
  | .rep_init_variance, a, gp => set_rep_init_variance a gp
  | .lambda, a, gp => set_lambda a gp
  | .alpha, a, gp => set_alpha a gp
  | .truncate_length, a, gp => set_truncate_length a gp
  | .block_length, a, gp => set_block_length a gp
  | .divide_num, a, gp => set_divide_num a gp
  | .lyapunov_spectrum_size, a, gp => set_lyapunov_spectrum_size a gp
  | .threshold_period, a, gp => set_threshold_period a gp
  | .state_file, a, gp => set_state_file a gp
  | .closed_state_file, a, gp => set_closed_state_file a gp
  | .weight_file, a, gp => set_weight_file a gp
  | .threshold_file, a, gp => set_threshold_file a gp
  | .tau_file, a, gp => set_tau_file a gp
  | .init_file, a, gp => set_init_file a gp
  | .rep_init_file, a, gp => set_rep_init_file a gp
  | .adapt_lr_file, a, gp => set_adapt_lr_file a gp
  | .error_file, a, gp => set_error_file a gp
  | .closed_error_file, a, gp => set_closed_error_file a gp
  | .lyapunov_file, a, gp => set_lyapunov_file a gp
  | .entropy_file, a, gp => set_entropy_file a gp
  | .period_file, a, gp => set_period_file a gp
  | .save_file, a, gp => set_save_file a gp
  | .load_file, a, gp => set_load_file a gp
  | .print_interval, a, gp => set_print_interval a gp
  | .print_init, a, gp => set_print_init a gp
  | .print_end, a, gp => set_print_end a gp
  | .use_logscale_interval, a, gp => set_use_logscale_interval a gp
  | .print_interval_for fn, a, gp => set_print_interval_for fn a gp
  | .print_init_for fn, a, gp => set_print_init_for fn a gp
  | .print_end_for fn, a, gp => set_print_end_for fn a gp
  | .use_logscale_interval_for fn, a, gp => set_use_logscale_interval_for fn a gp
  | .verbose, a, gp => set_verbose a gp
  | .config_file, a, gp => set_config_file a gp

/-- True exactly on the seed setter. -/
def is_seed_id : SetterId → Bool
  | .seed => true
  | _ => false

/-- read_options, abstracted to the sequence of setter invocations it
performs: getopt dispatch over argv (together with the expansion of
config-file processing) is deterministic in the argv array and the
config-file contents, and amounts to applying the named setters in order. -/
def read_options (calls : List (SetterId × Option String)) (gp : general_parameters) :
    general_parameters :=
  calls.foldl (fun s c => apply_setter c.1 c.2 s) gp

/-- The invocation sequence contains the seed setter (option -s on the
command line or a seed= line of a config file). -/
def has_seed_call (calls : List (SetterId × Option String)) : Prop :=
  ∃ c ∈ calls, is_seed_id c.1 = true

/-- Replace only the seed field. -/
def set_seed_field (gp : general_parameters) (v : Nat) : general_parameters :=
  { gp with mp := { gp.mp with seed := v } }

/-- check_parameters: the validation that main runs after init_parameters,
read_options and setup_target and immediately before training_main. Returns
the error message of the first violated range check (the C code prints it via
print_error_msg and exits with EXIT_FAILURE), or none when every check
passes. -/
def check_parameters (gp : general_parameters) (t_reader : target_reader) : Option String :=
  if gp.mp.seed ≤ 0 then
    some "seed for random number generator not in valid range: x >= 1 (integer)"
  else if gp.mp.rho < 0 then
    some "learning rate not in valid range: x >= 0 (float)"
  else if gp.mp.momentum < 0 then
    some "learning momentum not in valid range: x >= 0 (float)"
  else if gp.mp.c_state_size ≤ 0 then
    some "number of context neurons must be greater than zero."
  else if gp.mp.rep_init_size ≤ 0 then
    some "number of representative points of initial state must be greater than zero."
  else if gp.mp.delay_length ≤ 0 then
    some "time delay in a self-feedback not in valid range: x > 0 (integer)"
  else if gp.mp.output_type ≠ 0 ∧ gp.mp.output_type ≠ 1 then
    some "type of output function must be 0(tanh) or 1(softmax activation function)"
  else if gp.mp.prior_strength < 0 then
    some "effect of the normal prior distribution not in valid range: x >= 0 (float)"
  else if gp.mp.rep_init_variance ≤ 0 then
    some "variance for representative points of initial state not in valid range: x >= 0 (float)"
  else if gp.mp.lambda < 0 then
    some "\x60lambda\x27 not in valid range: x >= 0 (float)"
  else if gp.mp.alpha < 0 then
    some "\x60alpha\x27 not in valid range: x >= 0 (float)"
  else if gp.ap.truncate_length < 0 then
    some "\x60truncate_length\x27 not in valid range: x >= 0 (integer)"
  else if gp.ap.block_length < 0 then
    some "\x60block_length\x27 not in valid range: x >= 0 (integer)"
  else if gp.ap.divide_num ≤ 0 then
    some "\x60divide_num\x27 not in valid range: x >= 1 (integer)"
  else if t_reader.num = 0 ∧ gp.iop.load_filename = "" then
    some "training data is empty."
  else none

/-- All fourteen parameter range checks of check_parameters pass (everything
except the final empty-training-data check). -/
abbrev params_valid (gp : general_parameters) : Prop :=
  ¬(gp.mp.seed ≤ 0) ∧ ¬(gp.mp.rho < 0) ∧ ¬(gp.mp.momentum < 0) ∧
  ¬(gp.mp.c_state_size ≤ 0) ∧ ¬(gp.mp.rep_init_size ≤ 0) ∧
  ¬(gp.mp.delay_length ≤ 0) ∧
  ¬(gp.mp.output_type ≠ 0 ∧ gp.mp.output_type ≠ 1) ∧
  ¬(gp.mp.prior_strength < 0) ∧ ¬(gp.mp.rep_init_variance ≤ 0) ∧
  ¬(gp.mp.lambda < 0) ∧ ¬(gp.mp.alpha < 0) ∧ ¬(gp.ap.truncate_length < 0) ∧
  ¬(gp.ap.block_length < 0) ∧ ¬(gp.ap.divide_num ≤ 0)

/-- Every check of check_parameters other than the rep_init_variance range
check passes. -/
abbrev checks_except_variance_pass (gp : general_parameters) (t_reader : target_reader) : Prop :=
  ¬(gp.mp.seed ≤ 0) ∧ ¬(gp.mp.rho < 0) ∧ ¬(gp.mp.momentum < 0) ∧
  ¬(gp.mp.c_state_size ≤ 0) ∧ ¬(gp.mp.rep_init_size ≤ 0) ∧
  ¬(gp.mp.delay_length ≤ 0) ∧
  ¬(gp.mp.output_type ≠ 0 ∧ gp.mp.output_type ≠ 1) ∧
  ¬(gp.mp.prior_strength < 0) ∧
  ¬(gp.mp.lambda < 0) ∧ ¬(gp.mp.alpha < 0) ∧ ¬(gp.ap.truncate_length < 0) ∧
  ¬(gp.ap.block_length < 0) ∧ ¬(gp.ap.divide_num ≤ 0) ∧
  ¬(t_reader.num = 0 ∧ gp.iop.load_filename = "")

/-- Observable outcome of main relative to training: either the process
exits with EXIT_FAILURE carrying an error message before training_main, or
training_main is entered with the validated parameters and targets. -/
inductive run_result where
  | exited (msg : String)
  | trained (gp : general_parameters) (t_reader : target_reader)

/-- The tail of main after options, config files and target data are read:
check_parameters runs on the finished configuration and training_main is
entered only when it passes. -/
def run_after_setup (gp : general_parameters) (t_reader : target_reader) : run_result :=
  match check_parameters gp t_reader with
  | some msg => run_result.exited msg
  | none => run_result.trained gp t_reader

/-- Whether the outcome entered training_main. -/
def reached_training : run_result → Bool
  | .trained _ _ => true
  | .exited _ => false

/-- main: init_parameters with the ambient time*pid product, read_options
(abstracted to its setter-invocation sequence), setup_target producing the
target_reader, then check_parameters gating training_main. -/
def main_run (time_pid : Int) (calls : List (SetterId × Option String))
    (t_reader : target_reader) : run_result :=
  run_after_setup (read_options calls (init_parameters time_pid)) t_reader

/-- main for an invocation `rnn-learn -c file target...`: the -c option makes
read_options process the config file lines through read_config_file; the
warnings are printed and discarded. -/
def main_run_config (time_pid : Int) (cfg_lines : List String)
    (t_reader : target_reader) : run_result :=
  run_after_setup (read_config_file cfg_lines (init_parameters time_pid)).1 t_reader

/-- A target reader that parsed one sequence. -/
def t_example : target_reader := { num := 1, dimension := 1 }

/-- A target reader that parsed nothing. -/
def t_empty : target_reader := { num := 0, dimension := 0 }

/-- A concrete configuration whose every checked field is explicitly valid
(used to instantiate witnesses; the fields check_parameters never reads keep
their defaults). -/
def gp_valid_example : general_parameters :=
  { init_parameters 0 with
    mp := { (init_parameters 0).mp with
              seed := 1, rho := 0, momentum := 0, c_state_size := 10,
              rep_init_size := 1, delay_length := 1, output_type := 0,
              prior_strength := 0, rep_init_variance := 1, lambda := 0,
              alpha := 0 },
    ap := { truncate_length := 0, block_length := 0, divide_num := 1,
            lyapunov_spectrum_size := 1, threshold_period := 1000 },
    iop := { (init_parameters 0).iop with load_filename := "" } }

/-- gp_valid_example with a negative learning rate. -/
def gp_rho_neg : general_parameters :=
  { gp_valid_example with mp := { gp_valid_example.mp with rho := -1 } }

/-- gp_valid_example with output_type 2. -/
def gp_output2 : general_parameters :=
  { gp_valid_example with mp := { gp_valid_example.mp with output_type := 2 } }

/-- gp_valid_example with negative epoch_size, lyapunov_spectrum_size and
threshold_period, the three fields check_parameters never examines. -/
def gp_neg_unchecked : general_parameters :=
  { gp_valid_example with
    mp := { gp_valid_example.mp with epoch_size := -5 },
    ap := { gp_valid_example.ap with lyapunov_spectrum_size := -3, threshold_period := -2 } }

/-- gp_valid_example with rep_init_variance 0. -/
def gp_var_zero : general_parameters :=
  { gp_valid_example with mp := { gp_valid_example.mp with rep_init_variance := 0 } }

/-- Config-file lines that set every checked field to an explicitly valid
value, then name an unknown option, then name an option that requires an
argument without supplying one. -/
def cfg_example : List String :=
  ["rho = 0", "momentum = 0", "c_state_size = 10", "rep_init_size = 1",
   "delay_length = 1", "output_type = 0", "prior_strength = 0",
   "rep_init_variance = 1", "lambda = 0", "alpha = 0", "truncate_length = 0",
   "block_length = 0", "divide_num = 1", "bogus_option = 1", "rho"]

/-- check_parameters accepts exactly the configurations passing all fourteen
parameter range checks together with the non-empty-training-data check. -/
lemma check_parameters_eq_none_iff (gp : general_parameters) (t : target_reader) :
    check_parameters gp t = none ↔
      params_valid gp ∧ ¬(t.num = 0 ∧ gp.iop.load_filename = "") := by
  constructor
  · intro hc
    unfold check_parameters at hc
    by_cases h1 : gp.mp.seed ≤ 0
    · rw [if_pos h1] at hc
      exact Option.noConfusion hc
    rw [if_neg h1] at hc
    by_cases h2 : gp.mp.rho < 0
    · rw [if_pos h2] at hc
      exact Option.noConfusion hc
    rw [if_neg h2] at hc
    by_cases h3 : gp.mp.momentum < 0
    · rw [if_pos h3] at hc
      exact Option.noConfusion hc
    rw [if_neg h3] at hc
    by_cases h4 : gp.mp.c_state_size ≤ 0
    · rw [if_pos h4] at hc
      exact Option.noConfusion hc
    rw [if_neg h4] at hc
    by_cases h5 : gp.mp.rep_init_size ≤ 0
    · rw [if_pos h5] at hc
      exact Option.noConfusion hc
    rw [if_neg h5] at hc
    by_cases h6 : gp.mp.delay_length ≤ 0
    · rw [if_pos h6] at hc
      exact Option.noConfusion hc
    rw [if_neg h6] at hc
    by_cases h7 : gp.mp.output_type ≠ 0 ∧ gp.mp.output_type ≠ 1
    · rw [if_pos h7] at hc
      exact Option.noConfusion hc
    rw [if_neg h7] at hc
    by_cases h8 : gp.mp.prior_strength < 0
    · rw [if_pos h8] at hc
      exact Option.noConfusion hc
    rw [if_neg h8] at hc
    by_cases h9 : gp.mp.rep_init_variance ≤ 0
    · rw [if_pos h9] at hc
      exact Option.noConfusion hc
    rw [if_neg h9] at hc
    by_cases h10 : gp.mp.lambda < 0
    · rw [if_pos h10] at hc
      exact Option.noConfusion hc
    rw [if_neg h10] at hc
    by_cases h11 : gp.mp.alpha < 0
    · rw [if_pos h11] at hc
      exact Option.noConfusion hc
    rw [if_neg h11] at hc
    by_cases h12 : gp.ap.truncate_length < 0
    · rw [if_pos h12] at hc
      exact Option.noConfusion hc
    rw [if_neg h12] at hc
    by_cases h13 : gp.ap.block_length < 0
    · rw [if_pos h13] at hc
      exact Option.noConfusion hc
    rw [if_neg h13] at hc
    by_cases h14 : gp.ap.divide_num ≤ 0
    · rw [if_pos h14] at hc
      exact Option.noConfusion hc
    rw [if_neg h14] at hc
    by_cases h15 : t.num = 0 ∧ gp.iop.load_filename = ""
    · rw [if_pos h15] at hc
      exact Option.noConfusion hc
    rw [if_neg h15] at hc
    exact ⟨⟨h1, h2, h3, h4, h5, h6, h7, h8, h9, h10, h11, h12, h13, h14⟩, h15⟩
  · rintro ⟨⟨v1, v2, v3, v4, v5, v6, v7, v8, v9, v10, v11, v12, v13, v14⟩, v15⟩
    unfold check_parameters
    rw [if_neg v1, if_neg v2, if_neg v3, if_neg v4, if_neg v5, if_neg v6,
        if_neg v7, if_neg v8, if_neg v9, if_neg v10, if_neg v11, if_neg v12,
        if_neg v13, if_neg v14, if_neg v15]

/-- C1: configuration validation is fatal and happens before training starts:
main runs check_parameters after init_parameters, read_options and
setup_target and before training_main, and for every configuration with
rho < 0, c_state_size <= 0, momentum < 0, delay_length <= 0,
prior_strength < 0, lambda < 0, alpha < 0, truncate_length < 0,
block_length < 0 or divide_num <= 0, check_parameters yields the error
message of the offending field and the run exits with EXIT_FAILURE, so
training_main is never entered. -/
theorem check_parameters_rejects_invalid_ranges :
    (∀ (time_pid : Int) (calls : List (SetterId × Option String)) (t : target_reader),
      main_run time_pid calls t =
        run_after_setup (read_options calls (init_parameters time_pid)) t) ∧
    (∀ (gp : general_parameters) (t : target_reader),
      gp.mp.rho < 0 ∨ gp.mp.c_state_size ≤ 0 ∨ gp.mp.momentum < 0 ∨
      gp.mp.delay_length ≤ 0 ∨ gp.mp.prior_strength < 0 ∨ gp.mp.lambda < 0 ∨
      gp.mp.alpha < 0 ∨ gp.ap.truncate_length < 0 ∨ gp.ap.block_length < 0 ∨
      gp.ap.divide_num ≤ 0 →
      ∃ m, check_parameters gp t = some m ∧
        run_after_setup gp t = run_result.exited m) := by
  refine ⟨fun _ _ _ => rfl, fun gp t h => ?_⟩
  cases hc : check_parameters gp t with
  | some m => exact ⟨m, rfl, by simp [run_after_setup, hc]⟩
  | none =>
    rw [check_parameters_eq_none_iff] at hc
    obtain ⟨⟨h1, h2, h3, h4, h5, h6, h7, h8, h9, h10, h11, h12, h13, h14⟩, h15⟩ := hc
    rcases h with h | h | h | h | h | h | h | h | h | h <;> exact absurd h (by assumption)

/-- Witness for C1 at a configuration with a negative learning rate. -/
theorem check_parameters_rejects_invalid_ranges_witness :
    gp_rho_neg.mp.rho < 0 ∧
    ∃ m, check_parameters gp_rho_neg t_example = some m ∧
      run_after_setup gp_rho_neg t_example = run_result.exited m :=
  ⟨by decide,
   check_parameters_rejects_invalid_ranges.2 gp_rho_neg t_example (Or.inl (by decide))⟩

/-- C5: the output type is restricted to exactly tanh (0) and softmax (1):
training_main is entered only when output_type is 0 or 1, and for every
other value check_parameters yields an error and the run exits with
EXIT_FAILURE before training. -/
theorem output_type_restricted_to_tanh_softmax :
    ∀ (gp : general_parameters) (t : target_reader),
      (reached_training (run_after_setup gp t) = true →
        gp.mp.output_type = 0 ∨ gp.mp.output_type = 1) ∧
      (gp.mp.output_type ≠ 0 ∧ gp.mp.output_type ≠ 1 →
        ∃ m, check_parameters gp t = some m ∧
          run_after_setup gp t = run_result.exited m) := by
  intro gp t
  constructor
  · intro h
    cases hc : check_parameters gp t with
    | some m => simp [run_after_setup, hc, reached_training] at h
    | none =>
      rw [check_parameters_eq_none_iff] at hc
      have h7 := hc.1.2.2.2.2.2.2.1
      by_cases h0 : gp.mp.output_type = 0
      · exact Or.inl h0
      · right
        by_contra h1
        exact h7 ⟨h0, h1⟩
  · intro h
    cases hc : check_parameters gp t with
    | some m => exact ⟨m, rfl, by simp [run_after_setup, hc]⟩
    | none =>
      rw [check_parameters_eq_none_iff] at hc
      exact absurd h hc.1.2.2.2.2.2.2.1

/-- Witness for C5 at output_type 2. -/
theorem output_type_restricted_to_tanh_softmax_witness :
    (gp_output2.mp.output_type ≠ 0 ∧ gp_output2.mp.output_type ≠ 1) ∧
    ∃ m, check_parameters gp_output2 t_example = some m ∧
      run_after_setup gp_output2 t_example = run_result.exited m :=
  ⟨by decide,
   (output_type_restricted_to_tanh_softmax gp_output2 t_example).2 (by decide)⟩

/-- C6: an empty training set is fatal: when the target reader parsed zero
sequences and no load file was specified, check_parameters fails and the
run exits with EXIT_FAILURE before training_main; when every parameter range
check passes, the message is exactly the empty-training-data one. -/
theorem empty_training_data_fatal (gp : general_parameters) (t : target_reader)
    (h1 : t.num = 0) (h2 : gp.iop.load_filename = "") :
    (∃ m, check_parameters gp t = some m ∧
      run_after_setup gp t = run_result.exited m) ∧
    (params_valid gp → check_parameters gp t = some "training data is empty.") := by
  constructor
  · cases hc : check_parameters gp t with
    | some m => exact ⟨m, rfl, by simp [run_after_setup, hc]⟩
    | none =>
      rw [check_parameters_eq_none_iff] at hc
      exact absurd ⟨h1, h2⟩ hc.2
  · intro hv
    obtain ⟨v1, v2, v3, v4, v5, v6, v7, v8, v9, v10, v11, v12, v13, v14⟩ := hv
    unfold check_parameters
    rw [if_neg v1, if_neg v2, if_neg v3, if_neg v4, if_neg v5, if_neg v6,
        if_neg v7, if_neg v8, if_neg v9, if_neg v10, if_neg v11, if_neg v12,
        if_neg v13, if_neg v14, if_pos ⟨h1, h2⟩]

/-- Witness for C6: a valid configuration with an empty target reader. -/
theorem empty_training_data_fatal_witness :
    t_empty.num = 0 ∧ params_valid gp_valid_example ∧
    check_parameters gp_valid_example t_empty = some "training data is empty." :=
  ⟨by decide, by decide,
   (empty_training_data_fatal gp_valid_example t_empty (by decide) (by decide)).2
     (by decide)⟩

/-- C7: representative-point count invariant: whenever training_main is
entered, rep_init_size is at least 1 (check_parameters rejects every
configuration with rep_init_size <= 0 beforehand). -/
theorem rep_init_size_at_least_one_when_training :
    ∀ (gp : general_parameters) (t : target_reader),
      reached_training (run_after_setup gp t) = true → 1 ≤ gp.mp.rep_init_size := by
  intro gp t h
  cases hc : check_parameters gp t with
  | some m => simp [run_after_setup, hc, reached_training] at h
  | none =>
    rw [check_parameters_eq_none_iff] at hc
    have h5 := hc.1.2.2.2.1
    omega

/-- Witness for C7 at a configuration that reaches training. -/
theorem rep_init_size_at_least_one_when_training_witness :
    reached_training (run_after_setup gp_valid_example t_example) = true ∧
    1 ≤ gp_valid_example.mp.rep_init_size :=
  ⟨by decide,
   rep_init_size_at_least_one_when_training gp_valid_example t_example (by decide)⟩

/-- C8: the accept/reject decision of check_parameters never examines
epoch_size, lyapunov_spectrum_size or threshold_period: configurations
differing only in these three fields validate identically, and a concrete
configuration with all three negative passes validation and reaches
training_main. -/
theorem check_parameters_ignores_epoch_and_lyapunov_fields :
    (∀ (gp : general_parameters) (t : target_reader) (e l : Int) (p : ℚ),
      check_parameters
        { gp with
          mp := { gp.mp with epoch_size := e },
          ap := { gp.ap with lyapunov_spectrum_size := l, threshold_period := p } } t =
      check_parameters gp t) ∧
    gp_neg_unchecked.mp.epoch_size < 0 ∧
    gp_neg_unchecked.ap.lyapunov_spectrum_size < 0 ∧
    gp_neg_unchecked.ap.threshold_period < 0 ∧
    reached_training (run_after_setup gp_neg_unchecked t_example) = true :=
  ⟨fun _ _ _ _ _ => rfl, by decide, by decide, by decide, by decide⟩

/-- C9: check_parameters rejects rep_init_variance = 0 although its message
states the valid range as x >= 0: the accepted values are exactly the
strictly positive ones, and at rep_init_variance = 0 (other checks passing)
the run fails with that very message. -/
theorem rep_init_variance_accepted_iff_positive :
    ∀ (gp : general_parameters) (t : target_reader),
      (reached_training (run_after_setup gp t) = true →
        0 < gp.mp.rep_init_variance) ∧
      (gp.mp.rep_init_variance ≤ 0 → ∃ m, check_parameters gp t = some m) ∧
      (checks_except_variance_pass gp t →
        ((check_parameters gp t = none ↔ 0 < gp.mp.rep_init_variance) ∧
         (gp.mp.rep_init_variance = 0 →
           check_parameters gp t = some "variance for representative points of initial state not in valid range: x >= 0 (float)"))) := by
  intro gp t
  refine ⟨?_, ?_, ?_⟩
  · intro h
    cases hc : check_parameters gp t with
    | some m => simp [run_after_setup, hc, reached_training] at h
    | none =>
      rw [check_parameters_eq_none_iff] at hc
      exact lt_of_not_le hc.1.2.2.2.2.2.2.2.2.1
  · intro h
    cases hc : check_parameters gp t with
    | some m => exact ⟨m, rfl⟩
    | none =>
      rw [check_parameters_eq_none_iff] at hc
      exact absurd h hc.1.2.2.2.2.2.2.2.2.1
  · intro hv
    obtain ⟨v1, v2, v3, v4, v5, v6, v7, v8, v10, v11, v12, v13, v14, v15⟩ := hv
    constructor
    · rw [check_parameters_eq_none_iff]
      unfold params_valid
      constructor
      · intro hc
        exact lt_of_not_le hc.1.2.2.2.2.2.2.2.2.1
      · intro hvar
        exact ⟨⟨v1, v2, v3, v4, v5, v6, v7, v8, not_le_of_lt hvar, v10, v11,
          v12, v13, v14⟩, v15⟩
    · intro hvar
      have h9 : gp.mp.rep_init_variance ≤ 0 := le_of_eq hvar
      unfold check_parameters
      rw [if_neg v1, if_neg v2, if_neg v3, if_neg v4, if_neg v5, if_neg v6,
          if_neg v7, if_neg v8, if_pos h9]

/-- Witness for C9 at rep_init_variance = 0. -/
theorem rep_init_variance_accepted_iff_positive_witness :
    checks_except_variance_pass gp_var_zero t_example ∧
    gp_var_zero.mp.rep_init_variance = 0 ∧
    check_parameters gp_var_zero t_example = some "variance for representative points of initial state not in valid range: x >= 0 (float)" :=
  ⟨by decide, by decide,
   ((rep_init_variance_accepted_iff_positive gp_var_zero t_example).2.2
     (by decide)).2 (by decide)⟩

/-- C10: the default seed is always in range: for every time*pid product the
value ((unsigned long)(time*pid) mod 4294967295) + 1 computed by
init_parameters lies in [1, 4294967295], so the seed <= 0 rejection of
check_parameters can never fire for a default-initialized seed. -/
theorem default_seed_always_in_valid_range :
    ∀ x : Int,
      1 ≤ default_seed x ∧ default_seed x ≤ 4294967295 ∧
      (∀ (gp : general_parameters) (t : target_reader),
        gp.mp.seed = default_seed x →
        check_parameters gp t ≠
          some "seed for random number generator not in valid range: x >= 1 (integer)") := by
  intro x
  have hb : (x % (2 ^ 64 : Int)).toNat % 4294967295 < 4294967295 :=
    Nat.mod_lt _ (by norm_num)
  refine ⟨Nat.le_add_left 1 _, by unfold default_seed; omega, ?_⟩
  intro gp t hseed hcontra
  have hpos : ¬(gp.mp.seed ≤ 0) := by
    rw [hseed]
    unfold default_seed
    omega
  unfold check_parameters at hcontra
  rw [if_neg hpos] at hcontra
  by_cases h2 : gp.mp.rho < 0
  · rw [if_pos h2] at hcontra
    simp at hcontra
  rw [if_neg h2] at hcontra
  by_cases h3 : gp.mp.momentum < 0
  · rw [if_pos h3] at hcontra
    simp at hcontra
  rw [if_neg h3] at hcontra
  by_cases h4 : gp.mp.c_state_size ≤ 0
  · rw [if_pos h4] at hcontra
    simp at hcontra
  rw [if_neg h4] at hcontra
  by_cases h5 : gp.mp.rep_init_size ≤ 0
  · rw [if_pos h5] at hcontra
    simp at hcontra
  rw [if_neg h5] at hcontra
  by_cases h6 : gp.mp.delay_length ≤ 0
  · rw [if_pos h6] at hcontra
    simp at hcontra
  rw [if_neg h6] at hcontra
  by_cases h7 : gp.mp.output_type ≠ 0 ∧ gp.mp.output_type ≠ 1
  · rw [if_pos h7] at hcontra
    simp at hcontra
  rw [if_neg h7] at hcontra
  by_cases h8 : gp.mp.prior_strength < 0
  · rw [if_pos h8] at hcontra
    simp at hcontra
  rw [if_neg h8] at hcontra
  by_cases h9 : gp.mp.rep_init_variance ≤ 0
  · rw [if_pos h9] at hcontra
    simp at hcontra
  rw [if_neg h9] at hcontra
  by_cases h10 : gp.mp.lambda < 0
  · rw [if_pos h10] at hcontra
    simp at hcontra
  rw [if_neg h10] at hcontra
  by_cases h11 : gp.mp.alpha < 0
  · rw [if_pos h11] at hcontra
    simp at hcontra
  rw [if_neg h11] at hcontra
  by_cases h12 : gp.ap.truncate_length < 0
  · rw [if_pos h12] at hcontra
    simp at hcontra
  rw [if_neg h12] at hcontra
  by_cases h13 : gp.ap.block_length < 0
  · rw [if_pos h13] at hcontra
    simp at hcontra
  rw [if_neg h13] at hcontra
  by_cases h14 : gp.ap.divide_num ≤ 0
  · rw [if_pos h14] at hcontra
    simp at hcontra
  rw [if_neg h14] at hcontra
  by_cases h15 : t.num = 0 ∧ gp.iop.load_filename = ""
  · rw [if_pos h15] at hcontra
    simp at hcontra
  rw [if_neg h15] at hcontra
  exact Option.noConfusion hcontra

/-- Witness for C10 at time*pid product 0 (default seed 1). -/
theorem default_seed_always_in_valid_range_witness :
    1 ≤ default_seed 0 ∧
    check_parameters gp_valid_example t_example ≠
      some "seed for random number generator not in valid range: x >= 1 (integer)" :=
  ⟨(default_seed_always_in_valid_range 0).1,
   (default_seed_always_in_valid_range 0).2.2 gp_valid_example t_example (by decide)⟩

/-- C2 counterexample: a config file whose line 14 names an unknown option and
whose line 15 names an option that requires an argument while supplying none
does not abort the run: read_config_file only collects two warning messages,
and the run still enters training_main. -/
theorem config_file_warnings_do_not_abort :
    reached_training (main_run_config 0 cfg_example t_example) = true ∧
    (read_config_file cfg_example (init_parameters 0)).2 =
      ["warning: unknown option \x60bogus_option\x27 at line 14",
       "warning: option \x60rho\x27 requires an argument at line 15"] :=
  ⟨by decide, by decide⟩

/-- C2 (amended): a config line naming an unknown option, or naming an option
that requires an argument while supplying none, is converted by
read_config_file into a warning naming the option and the line number; the
configuration is left unchanged by that line and processing continues (the
run is not aborted). -/
theorem read_config_line_warns_and_continues :
    ∀ (gp : general_parameters) (n : Nat) (str opt : String) (arg : Option String),
      parse_option_and_arg str = (some opt, arg) → 0 < opt.length →
      (((opt_info.find? (fun e => e.1 == opt)).isNone = true →
        read_config_line gp n str =
          (gp, some ("warning: unknown option \x60" ++ opt ++ "\x27 at line " ++ toString n))) ∧
       (∀ (nm : String) (f : Option String → general_parameters → general_parameters),
        opt_info.find? (fun e => e.1 == opt) = some (nm, true, f) → arg = none →
        read_config_line gp n str =
          (gp, some ("warning: option \x60" ++ opt ++ "\x27 requires an argument at line " ++ toString n)))) := by
  intro gp n str opt arg hparse hlen
  constructor
  · intro hfind
    unfold read_config_line
    rw [hparse]
    dsimp only
    rw [if_pos hlen, Option.isNone_iff_eq_none.mp hfind]
  · intro nm f hfind harg
    unfold read_config_line
    rw [hparse]
    dsimp only
    rw [if_pos hlen, hfind, harg]
    dsimp only
    rw [if_pos (by decide : (true && Option.isNone (none : Option String)) = true)]

/-- Witness for the amended C2 at the two offending lines of cfg_example. -/
theorem read_config_line_warns_and_continues_witness :
    parse_option_and_arg "bogus_option = 1" = (some "bogus_option", some "1") ∧
    (opt_info.find? (fun e => e.1 == "bogus_option")).isNone = true ∧
    read_config_line gp_valid_example 14 "bogus_option = 1" =
      (gp_valid_example, some "warning: unknown option \x60bogus_option\x27 at line 14") ∧
    parse_option_and_arg "rho" = (some "rho", none) ∧
    read_config_line gp_valid_example 15 "rho" =
      (gp_valid_example, some "warning: option \x60rho\x27 requires an argument at line 15") :=
  ⟨by decide, by decide,
   (read_config_line_warns_and_continues gp_valid_example 14 "bogus_option = 1"
     "bogus_option" (some "1") (by decide) (by decide)).1 (by decide),
   by decide,
   (read_config_line_warns_and_continues gp_valid_example 15 "rho" "rho" none
     (by decide) (by decide)).2 "rho" set_rho rfl rfl⟩

/-- Every setter preserves the explicitly-set markers of every stream's
interval policy: no operation ever clears a _set flag. -/
lemma apply_setter_preserves_interval_flags (id : SetterId) (arg : Option String)
    (gp : general_parameters) (fn : stream_file) :
    ((gp.iop.interval_for fn)._set_interval_flag = true →
      ((apply_setter id arg gp).iop.interval_for fn)._set_interval_flag = true) ∧
    ((gp.iop.interval_for fn)._set_init_flag = true →
      ((apply_setter id arg gp).iop.interval_for fn)._set_init_flag = true) ∧
    ((gp.iop.interval_for fn)._set_end_flag = true →
      ((apply_setter id arg gp).iop.interval_for fn)._set_end_flag = true) ∧
    ((gp.iop.interval_for fn)._set_use_logscale_interval_flag = true →
      ((apply_setter id arg gp).iop.interval_for fn)._set_use_logscale_interval_flag = true) := by
  cases id
  case print_interval =>
    refine ⟨fun h => ?_, fun h => ?_, fun h => ?_, fun h => ?_⟩ <;>
      by_cases hc : (gp.iop.interval_for fn)._set_interval_flag = true <;>
        simp_all [apply_setter, set_print_interval]
  case print_init =>
    refine ⟨fun h => ?_, fun h => ?_, fun h => ?_, fun h => ?_⟩ <;>
      by_cases hc : (gp.iop.interval_for fn)._set_init_flag = true <;>
        simp_all [apply_setter, set_print_init]
  case print_end =>
    refine ⟨fun h => ?_, fun h => ?_, fun h => ?_, fun h => ?_⟩ <;>
      by_cases hc : (gp.iop.interval_for fn)._set_end_flag = true <;>
        simp_all [apply_setter, set_print_end]
  case use_logscale_interval =>
    refine ⟨fun h => ?_, fun h => ?_, fun h => ?_, fun h => ?_⟩ <;>
      by_cases hc : (gp.iop.interval_for fn)._set_use_logscale_interval_flag = true <;>
        simp_all [apply_setter, set_use_logscale_interval]
  case print_interval_for fn2 =>
    refine ⟨fun h => ?_, fun h => ?_, fun h => ?_, fun h => ?_⟩ <;>
      by_cases hf : fn = fn2 <;>
        simp_all [apply_setter, set_print_interval_for]
  case print_init_for fn2 =>
    refine ⟨fun h => ?_, fun h => ?_, fun h => ?_, fun h => ?_⟩ <;>
      by_cases hf : fn = fn2 <;>
        simp_all [apply_setter, set_print_init_for]
  case print_end_for fn2 =>
    refine ⟨fun h => ?_, fun h => ?_, fun h => ?_, fun h => ?_⟩ <;>
      by_cases hf : fn = fn2 <;>
        simp_all [apply_setter, set_print_end_for]
  case use_logscale_interval_for fn2 =>
    refine ⟨fun h => ?_, fun h => ?_, fun h => ?_, fun h => ?_⟩ <;>
      by_cases hf : fn = fn2 <;>
        simp_all [apply_setter, set_use_logscale_interval_for]
  all_goals exact ⟨fun h => h, fun h => h, fun h => h, fun h => h⟩

/-- C3: output-stream interval policies are independently configurable: a
per-stream setter marks the field of that stream explicitly set; a global
default setter leaves an explicitly-set field of a stream unchanged and
writes the new default into the same field of every stream whose field was
never explicitly set; and no setter ever clears an explicitly-set marker, so
the protection persists for the rest of the run. -/
theorem print_interval_policies_independent :
    (∀ (gp : general_parameters) (fn : stream_file) (w : Option String),
      ((set_print_interval_for fn w gp).iop.interval_for fn)._set_interval_flag = true ∧
      ((set_print_init_for fn w gp).iop.interval_for fn)._set_init_flag = true ∧
      ((set_print_end_for fn w gp).iop.interval_for fn)._set_end_flag = true ∧
      ((set_use_logscale_interval_for fn w gp).iop.interval_for fn)._set_use_logscale_interval_flag = true) ∧
    (∀ (gp : general_parameters) (fn : stream_file) (opt : Option String),
      ((gp.iop.interval_for fn)._set_interval_flag = true →
        ((set_print_interval opt gp).iop.interval_for fn).interval =
          (gp.iop.interval_for fn).interval) ∧
      ((gp.iop.interval_for fn)._set_interval_flag = false →
        ((set_print_interval opt gp).iop.interval_for fn).interval =
          atol (opt.getD ""))) ∧
    (∀ (gp : general_parameters) (fn : stream_file) (opt : Option String),
      ((gp.iop.interval_for fn)._set_init_flag = true →
        ((set_print_init opt gp).iop.interval_for fn).init =
          (gp.iop.interval_for fn).init) ∧
      ((gp.iop.interval_for fn)._set_init_flag = false →
        ((set_print_init opt gp).iop.interval_for fn).init =
          atol (opt.getD ""))) ∧
    (∀ (gp : general_parameters) (fn : stream_file) (opt : Option String),
      ((gp.iop.interval_for fn)._set_end_flag = true →
        ((set_print_end opt gp).iop.interval_for fn).end_ =
          (gp.iop.interval_for fn).end_) ∧
      ((gp.iop.interval_for fn)._set_end_flag = false →
        ((set_print_end opt gp).iop.interval_for fn).end_ =
          atol (opt.getD ""))) ∧
    (∀ (gp : general_parameters) (fn : stream_file) (opt : Option String),
      ((gp.iop.interval_for fn)._set_use_logscale_interval_flag = true →
        ((set_use_logscale_interval opt gp).iop.interval_for fn).use_logscale_interval =
          (gp.iop.interval_for fn).use_logscale_interval) ∧
      ((gp.iop.interval_for fn)._set_use_logscale_interval_flag = false →
        ((set_use_logscale_interval opt gp).iop.interval_for fn).use_logscale_interval = true)) ∧
    (∀ (id : SetterId) (arg : Option String) (gp : general_parameters) (fn : stream_file),
      ((gp.iop.interval_for fn)._set_interval_flag = true →
        ((apply_setter id arg gp).iop.interval_for fn)._set_interval_flag = true) ∧
      ((gp.iop.interval_for fn)._set_init_flag = true →
        ((apply_setter id arg gp).iop.interval_for fn)._set_init_flag = true) ∧
      ((gp.iop.interval_for fn)._set_end_flag = true →
        ((apply_setter id arg gp).iop.interval_for fn)._set_end_flag = true) ∧
      ((gp.iop.interval_for fn)._set_use_logscale_interval_flag = true →
        ((apply_setter id arg gp).iop.interval_for fn)._set_use_logscale_interval_flag = true)) := by
  refine ⟨?_, ?_, ?_, ?_, ?_, apply_setter_preserves_interval_flags⟩
  · intro gp fn w
    refine ⟨?_, ?_, ?_, ?_⟩ <;>
      simp [set_print_interval_for, set_print_init_for, set_print_end_for,
        set_use_logscale_interval_for]
  · intro gp fn opt
    exact ⟨fun h => by simp [set_print_interval, h],
           fun h => by simp [set_print_interval, h]⟩
  · intro gp fn opt
    exact ⟨fun h => by simp [set_print_init, h],
           fun h => by simp [set_print_init, h]⟩
  · intro gp fn opt
    exact ⟨fun h => by simp [set_print_end, h],
           fun h => by simp [set_print_end, h]⟩
  · intro gp fn opt
    exact ⟨fun h => by simp [set_use_logscale_interval, h],
           fun h => by simp [set_use_logscale_interval, h]⟩

/-- Witness for C3: an explicit per-stream interval for the weight stream
survives a later global set_print_interval, while the error stream (never
explicitly set) receives the new default. -/
theorem print_interval_policies_independent_witness :
    ((set_print_interval_for stream_file.weight_file (some "7") (init_parameters 0)).iop.interval_for stream_file.weight_file)._set_interval_flag = true ∧
    ((set_print_interval (some "3") (set_print_interval_for stream_file.weight_file (some "7") (init_parameters 0))).iop.interval_for stream_file.weight_file).interval =
      ((set_print_interval_for stream_file.weight_file (some "7") (init_parameters 0)).iop.interval_for stream_file.weight_file).interval ∧
    ((set_print_interval (some "3") (set_print_interval_for stream_file.weight_file (some "7") (init_parameters 0))).iop.interval_for stream_file.error_file).interval =
      atol ((some "3").getD "") :=
  ⟨(print_interval_policies_independent.1 (init_parameters 0) stream_file.weight_file (some "7")).1,
   (print_interval_policies_independent.2.1
     (set_print_interval_for stream_file.weight_file (some "7") (init_parameters 0))
     stream_file.weight_file (some "3")).1 (by decide),
   (print_interval_policies_independent.2.1
     (set_print_interval_for stream_file.weight_file (some "7") (init_parameters 0))
     stream_file.error_file (some "3")).2 (by decide)⟩

/-- apply_setter commutes with overwriting the seed field, for every setter
other than set_seed: no other setter reads or writes the seed. -/
lemma apply_setter_set_seed_field_comm (id : SetterId) (arg : Option String)
    (gp : general_parameters) (v : Nat) (h : is_seed_id id = false) :
    apply_setter id arg (set_seed_field gp v) =
      set_seed_field (apply_setter id arg gp) v := by
  cases id <;> first | rfl | exact Bool.noConfusion h

/-- Once the invocation sequence contains a set_seed call, the initial value
of the seed field is immaterial to the final configuration. -/
lemma read_options_drops_seed_field :
    ∀ (calls : List (SetterId × Option String)) (gp : general_parameters) (v : Nat),
      has_seed_call calls →
      read_options calls (set_seed_field gp v) = read_options calls gp := by
  intro calls
  induction calls with
  | nil =>
    intro gp v h
    exact absurd h (by simp [has_seed_call])
  | cons c rest ih =>
    intro gp v h
    by_cases hc : is_seed_id c.1 = true
    · have hseed : c.1 = SetterId.seed := by
        cases hfst : c.1 <;> simp_all [is_seed_id]
      show read_options rest (apply_setter c.1 c.2 (set_seed_field gp v)) =
        read_options rest (apply_setter c.1 c.2 gp)
      rw [hseed]
      rfl
    · have hfalse : is_seed_id c.1 = false := by simpa using hc
      show read_options rest (apply_setter c.1 c.2 (set_seed_field gp v)) =
        read_options rest (apply_setter c.1 c.2 gp)
      rw [apply_setter_set_seed_field_comm c.1 c.2 gp v hfalse]
      apply ih
      rcases h with ⟨d, hd, hds⟩
      rcases List.mem_cons.mp hd with rfl | hmem
      · exact absurd hds hc
      · exact ⟨d, hmem, hds⟩

/-- Without a set_seed call, the initial seed value can only influence the
seed field itself: after normalizing that field, the results coincide. -/
lemma read_options_seed_field_normalized :
    ∀ (calls : List (SetterId × Option String)) (gp : general_parameters) (v : Nat),
      set_seed_field (read_options calls (set_seed_field gp v)) 0 =
        set_seed_field (read_options calls gp) 0 := by
  intro calls
  induction calls with
  | nil => intro gp v; rfl
  | cons c rest ih =>
    intro gp v
    by_cases hc : is_seed_id c.1 = true
    · have hseed : c.1 = SetterId.seed := by
        cases hfst : c.1 <;> simp_all [is_seed_id]
      show set_seed_field (read_options rest (apply_setter c.1 c.2 (set_seed_field gp v))) 0 =
        set_seed_field (read_options rest (apply_setter c.1 c.2 gp)) 0
      rw [hseed]
      rfl
    · have hfalse : is_seed_id c.1 = false := by simpa using hc
      show set_seed_field (read_options rest (apply_setter c.1 c.2 (set_seed_field gp v))) 0 =
        set_seed_field (read_options rest (apply_setter c.1 c.2 gp)) 0
      rw [apply_setter_set_seed_field_comm c.1 c.2 gp v hfalse]
      exact ih (apply_setter c.1 c.2 gp) v

/-- C4: configuration setup is deterministic given an explicit seed: two runs
of init_parameters followed by the same setter-invocation sequence (the same
argv and config-file contents) that contains the seed option produce
identical general_parameters records, regardless of the ambient time*pid
products; without it, the ambient state influences the configuration only
through the seed field. -/
theorem read_options_deterministic_with_explicit_seed :
    ∀ (a1 a2 : Int) (calls : List (SetterId × Option String)),
      (has_seed_call calls →
        read_options calls (init_parameters a1) = read_options calls (init_parameters a2)) ∧
      set_seed_field (read_options calls (init_parameters a1)) 0 =
        set_seed_field (read_options calls (init_parameters a2)) 0 := by
  intro a1 a2 calls
  have h0 : init_parameters a1 = set_seed_field (init_parameters a2) (default_seed a1) := rfl
  constructor
  · intro h
    rw [h0, read_options_drops_seed_field calls _ _ h]
  · rw [h0, read_options_seed_field_normalized]

/-- Witness for C4: a sequence containing the seed setter yields identical
configurations from two different ambient products. -/
theorem read_options_deterministic_with_explicit_seed_witness :
    has_seed_call [(SetterId.seed, some "42")] ∧
    read_options [(SetterId.seed, some "42")] (init_parameters 3) =
      read_options [(SetterId.seed, some "42")] (init_parameters 7) :=
  ⟨⟨(SetterId.seed, some "42"), by simp, rfl⟩,
   (read_options_deterministic_with_explicit_seed 3 7 [(SetterId.seed, some "42")]).1
     ⟨(SetterId.seed, some "42"), by simp, rfl⟩⟩

end SCTRNN
